import Mathlib

/-!
Shallow embedding of `requests_curl/request.py` (class `CURLRequest`).

The source derives a flat pycurl option dictionary from a prepared request
(url, method, headers, body) plus a transport policy (timeout, verify,
cert, verbose).  Python dictionaries are modelled as association lists
over an inductive key vocabulary, with `dict.update` semantics (later
writes overwrite earlier entries for the same key).  Python numbers that
feed `int(1000 * t)` are modelled as rationals with explicit truncation
toward zero.  Stream-like bodies (objects with a `read` attribute) are
modelled as tagged values carrying an identity token, so that "the read
callback is bound to the very same object" is expressible.
-/

namespace RequestsCurl

/-- Keys of the pycurl option dictionary used by `request.py`
(`pycurl.URL`, `pycurl.SSL_CIPHER_LIST`, ...). -/
inductive OptKey where
  | URL
  | SSL_CIPHER_LIST
  | HTTP_VERSION
  | SSLVERSION
  | SSL_ENABLE_ALPS
  | SSL_CERT_COMPRESSION
  | HTTP2_PSEUDO_HEADERS_ORDER
  | SSL_ENABLE_NPN
  | VERBOSE
  | FOLLOWLOCATION
  | COOKIEJAR
  | HTTPHEADER
  | NOBODY
  | POSTFIELDS
  | UPLOAD
  | READFUNCTION
  | CUSTOMREQUEST
  | TIMEOUT_MS
  | CONNECTTIMEOUT_MS
  | SSL_VERIFYHOST
  | SSL_VERIFYPEER
  | CAPATH
  | CAINFO
  | SSLCERT
  | SSLKEY
  deriving DecidableEq, Repr

/-- Identity of the stream source bound to `READFUNCTION`: either the
caller-supplied stream object (`self._request.body`, identified by a
token) or a fresh in-memory buffer (`six.BytesIO(...)` in the source). -/
inductive StreamSrc where
  | caller (id : Nat)
  | buffer (data : List Nat)
  deriving DecidableEq, Repr

/-- Values stored in the option dictionary. -/
inductive OptVal where
  | str (s : String)
  | num (n : Int)
  | flag (b : Bool)
  | strList (l : List String)
  | bytes (b : List Nat)
  | readCallback (src : StreamSrc)
  | streamObj (id : Nat)
  deriving DecidableEq, Repr

/-- Request body: absent is `Option.none`; otherwise text (`str`),
raw bytes, or a stream-like object exposing a `read` cursor. -/
inductive Body where
  | text (s : String)
  | bytes (b : List Nat)
  | stream (id : Nat)
  deriving DecidableEq, Repr

/-- Timeout policy value: a scalar number of seconds or a
(connect, read) pair, mirroring the `timeout` argument. -/
inductive TimeoutVal where
  | scalar (t : ℚ)
  | pair (conn read : ℚ)
  deriving DecidableEq

/-- Verification policy value: a boolean or a CA-bundle path string,
mirroring the `verify` argument (absent is `Option.none`). -/
inductive VerifyVal where
  | bool (b : Bool)
  | path (s : String)
  deriving DecidableEq, Repr

/-- Client certificate policy value: a single path or a
(cert path, key path) pair, mirroring the `cert` argument. -/
inductive CertVal where
  | single (p : String)
  | pair (cert key : String)
  deriving DecidableEq, Repr

/-- The read-only prepared request consumed by `CURLRequest.__init__`. -/
structure Descriptor where
  url : String
  method : Option String
  headers : List (String × String)
  body : Option Body
  deriving DecidableEq, Repr

/-- Environment of process-wide externals: `os.path.isdir` and the
`DEFAULT_CA_BUNDLE_PATH` constant imported from `requests.adapters`. -/
structure Env where
  isDir : String → Bool
  defaultCABundlePath : String

/-- Instance state of a `CURLRequest` object: constructor arguments plus
the mutable fields `_curl_options` (lazy cache), `_body_stream`, and
`cookies`. -/
structure CURLRequest where
  request : Descriptor
  timeout : Option TimeoutVal
  verify : Option VerifyVal
  cert : Option CertVal
  verbose : Int
  cookies : String
  curlOptions : Option (List (OptKey × OptVal))
  bodyStream : Option StreamSrc

/-- Mirrors `CURLRequest.__init__`: stores the arguments, initializes
`_curl_options` and `_body_stream` to `None` and `cookies` to the empty
string. -/
def mkCURLRequest (request : Descriptor) (timeout : Option TimeoutVal)
    (verify : Option VerifyVal) (cert : Option CertVal) (verbose : Int) :
    CURLRequest :=
  { request := request, timeout := timeout, verify := verify, cert := cert,
    verbose := verbose, cookies := "", curlOptions := none, bodyStream := none }

/-- A Python dict with `OptKey` keys, as an association list with unique
keys in insertion order. -/
abbrev DirectiveSet := List (OptKey × OptVal)

/-- Dictionary item assignment `d[k] = v`: replaces the entry for `k` in
place when present, appends it otherwise. -/
def setKey : DirectiveSet → OptKey → OptVal → DirectiveSet
  | [], k, v => [(k, v)]
  | p :: rest, k, v => if p.1 = k then (k, v) :: rest else p :: setKey rest k v

/-- Dictionary lookup `d.get(k)`. -/
def dictGet : DirectiveSet → OptKey → Option OptVal
  | [], _ => none
  | p :: rest, k => if p.1 = k then some p.2 else dictGet rest k

/-- Python `d.update(patch)`: assigns every entry of `patch` into `d`,
left to right; later entries overwrite earlier ones for the same key. -/
def dictUpdate (d : DirectiveSet) : DirectiveSet → DirectiveSet
  | [] => d
  | kv :: rest => dictUpdate (setKey d kv.1 kv.2) rest

/-- Python `int(q)` on a number: truncation toward zero. -/
def pyInt (q : ℚ) : Int := q.num.tdiv q.den

/-- The `CIPHER_LIST` literal of the `set_cipher` property, in source
order (the last element is itself a comma-separated pair, as written in
the source). -/
def cipherList : List String :=
  ["TLS_AES_128_GCM_SHA256", "TLS_AES_256_GCM_SHA384", "TLS_CHACHA20_POLY1305_SHA256",
   "ECDHE-ECDSA-AES128-GCM-SHA256", "ECDHE-RSA-AES128-GCM-SHA256", "ECDHE-ECDSA-AES256-GCM-SHA384",
   "ECDHE-RSA-AES256-GCM-SHA384", "ECDHE-ECDSA-CHACHA20-POLY1305", "ECDHE-RSA-CHACHA20-POLY1305",
   "ECDHE-RSA-AES128-SHA", "ECDHE-RSA-AES256-SHA", "AES128-GCM-SHA256", "AES256-GCM-SHA384",
   "AES128-SHA,AES256-SHA"]

/-- The `set_cipher` property: `\x27,\x27.join(CIPHER_LIST)` (pure; its
per-instance memoization caches this constant string). -/
def setCipher : String := String.intercalate "," cipherList

/-- Numeric value of the libcurl constant `CURL_HTTP_VERSION_2_0`. -/
def CURL_HTTP_VERSION_2_0 : Int := 3

/-- Numeric value of the libcurl constant `CURL_SSLVERSION_TLSv1_2`. -/
def SSLVERSION_TLSv1_2 : Int := 6

/-- Python `str.lower()`, character by character (the source only ever
lowercases ASCII header names and content types). -/
def pyLower (s : String) : String := ⟨s.data.map Char.toLower⟩

/-- Python `str.upper()`, character by character (the source only ever
uppercases ASCII method names). -/
def pyUpper (s : String) : String := ⟨s.data.map Char.toUpper⟩

/-- Python `s.startswith(pre)`. -/
def pyStartsWith (s pre : String) : Bool := pre.data.isPrefixOf s.data

/-- Case-insensitive header lookup, modelling
`self._request.headers.get(name)` on a requests `CaseInsensitiveDict`. -/
def headersGet (hs : List (String × String)) (name : String) : Option String :=
  (hs.find? (fun p => pyLower p.1 == pyLower name)).map Prod.snd

/-- Truthiness of `self._request.body`: `None`, the empty string and
empty bytes are falsy; a stream object is truthy. -/
def bodyTruthy : Option Body → Bool
  | none => false
  | some (.text s) => !(s == "")
  | some (.bytes bs) => !bs.isEmpty
  | some (.stream _) => true

/-- `isinstance(body, str)`. -/
def Body.isStr : Body → Bool
  | .text _ => true
  | _ => false

/-- `isinstance(body, bytes)`. -/
def Body.isBytes : Body → Bool
  | .bytes _ => true
  | _ => false

/-- `hasattr(body, "read")`: only stream-like bodies expose a read
cursor. -/
def Body.hasRead : Body → Bool
  | .stream _ => true
  | _ => false

/-- `six.ensure_binary(body)`: text is UTF-8 encoded, bytes pass
through.  The stream case is unreachable in the source path that calls
this (`ensure_binary` would raise on a stream); it is mapped to the
empty byte string. -/
def Body.ensureBinary : Body → List Nat
  | .text s => s.toUTF8.toList.map (fun c => c.toNat)
  | .bytes bs => bs
  | .stream _ => []

/-- The value Python would store under `pycurl.POSTFIELDS`: the body
itself.  The stream case is unreachable (a stream never classifies as an
encoded form) and is mapped to the raw object. -/
def Body.postfieldsVal : Body → OptVal
  | .text s => .str s
  | .bytes bs => .bytes bs
  | .stream i => .streamObj i

/-- The `flags` list of `build_body_options` followed by the membership
test `True in flags`: (a) body is `str`, (b) body is `bytes` and the
content type does not start with the multipart marker, (c) body has no
`read` attribute. -/
def isEncodedForm (contentType : String) (b : Body) : Bool :=
  [ b.isStr,
    b.isBytes && !(pyStartsWith contentType "multipart/form-data;"),
    !(b.hasRead) ].contains true

/-- Mirrors `build_headers_option`: one `HTTPHEADER` entry holding the
formatted `"Name: Value"` strings in insertion order. -/
def buildHeadersOption (r : CURLRequest) : DirectiveSet :=
  [(.HTTPHEADER, .strList (r.request.headers.map (fun p => p.1 ++ ": " ++ p.2)))]

/-- Mirrors `build_body_options`.  Returns the option patch together
with the value of `self._body_stream` after the call (the source assigns
that attribute in the streaming branch).  The `HEAD` comparison happens
before any method normalization, exactly as in the source. -/
def buildBodyOptions (r : CURLRequest) : DirectiveSet × Option StreamSrc :=
  if r.request.method = some "HEAD" then
    ([(.NOBODY, .flag true)], r.bodyStream)
  else if bodyTruthy r.request.body then
    match r.request.body with
    | some b =>
      let contentType := pyLower ((headersGet r.request.headers "Content-Type").getD "")
      if isEncodedForm contentType b then
        ([(.POSTFIELDS, b.postfieldsVal)], r.bodyStream)
      else
        let stream :=
          match b with
          | .stream i => StreamSrc.caller i
          | _ => StreamSrc.buffer b.ensureBinary
        ([(.UPLOAD, .flag true), (.READFUNCTION, .readCallback stream)], some stream)
    | none => ([], r.bodyStream)
  else ([], r.bodyStream)

/-- Mirrors `build_http_method_options`: normalize the method to upper
case (absent or empty means `GET`); `GET` contributes nothing, any other
method contributes a `CUSTOMREQUEST` entry. -/
def buildHttpMethodOptions (r : CURLRequest) : DirectiveSet :=
  let method :=
    match r.request.method with
    | some m => if m = "" then "GET" else pyUpper m
    | none => "GET"
  if method = "GET" then [] else [(.CUSTOMREQUEST, .str method)]

/-- Mirrors `build_timeout_options`: a (connect, read) pair yields both
`TIMEOUT_MS` and `CONNECTTIMEOUT_MS`; a truthy scalar yields only
`TIMEOUT_MS`; a zero scalar is falsy in Python and, like an absent
timeout, yields nothing. -/
def buildTimeoutOptions (r : CURLRequest) : DirectiveSet :=
  match r.timeout with
  | some (.pair conn read) =>
    [(.TIMEOUT_MS, .num (pyInt (1000 * (conn + read)))),
     (.CONNECTTIMEOUT_MS, .num (pyInt (1000 * conn)))]
  | some (.scalar t) =>
    if t = 0 then [] else [(.TIMEOUT_MS, .num (pyInt (1000 * t)))]
  | none => []

/-- Truthiness of `self._verify`: `None`, `False` and the empty string
are falsy. -/
def verifyTruthy : Option VerifyVal → Bool
  | none => false
  | some (.bool b) => b
  | some (.path s) => !(s == "")

/-- The `ca_value` expression of `build_ca_options`: the verify string
when `verify` is a string, the default CA bundle path otherwise. -/
def caValue (env : Env) (r : CURLRequest) : String :=
  match r.verify with
  | some (.path s) => s
  | _ => env.defaultCABundlePath

/-- Mirrors `build_ca_options`: truthy verify yields strict host and
peer verification plus one CA source entry, under `CAPATH` when the
resolved value is a directory and `CAINFO` otherwise; falsy verify
yields both verification entries with value 0 and no CA source. -/
def buildCaOptions (env : Env) (r : CURLRequest) : DirectiveSet :=
  if verifyTruthy r.verify then
    let ca := caValue env r
    let caOpt := if env.isDir ca then OptKey.CAPATH else OptKey.CAINFO
    [(.SSL_VERIFYHOST, .num 2), (.SSL_VERIFYPEER, .num 2), (caOpt, .str ca)]
  else
    [(.SSL_VERIFYHOST, .num 0), (.SSL_VERIFYPEER, .num 0)]

/-- Truthiness of `self._cert`: `None` and the empty string are falsy;
a pair (non-empty tuple) is always truthy. -/
def certTruthy : Option CertVal → Bool
  | none => false
  | some (.single p) => !(p == "")
  | some (.pair _ _) => true

/-- Mirrors `build_cert_options`: a single path yields `SSLCERT` only,
a pair yields `SSLCERT` and `SSLKEY`; a falsy cert yields nothing. -/
def buildCertOptions (r : CURLRequest) : DirectiveSet :=
  if certTruthy r.cert then
    match r.cert with
    | some (.single p) => [(.SSLCERT, .str p)]
    | some (.pair c k) => [(.SSLCERT, .str c), (.SSLKEY, .str k)]
    | none => []
  else []

/-- The dictionary literal at the top of `_build_curl_options`, before
any update. -/
def baseOptions (r : CURLRequest) : DirectiveSet :=
  [(.URL, .str r.request.url),
   (.SSL_CIPHER_LIST, .str setCipher),
   (.HTTP_VERSION, .num CURL_HTTP_VERSION_2_0),
   (.SSLVERSION, .num SSLVERSION_TLSv1_2),
   (.SSL_ENABLE_ALPS, .num 1),
   (.SSL_CERT_COMPRESSION, .str "brotli"),
   (.HTTP2_PSEUDO_HEADERS_ORDER, .str "masp"),
   (.SSL_ENABLE_NPN, .num 0),
   (.VERBOSE, .num r.verbose),
   (.FOLLOWLOCATION, .num 1),
   (.COOKIEJAR, .str r.cookies)]

/-- Value of `options` after `options.update(self.build_headers_option())`. -/
def optsHeaders (r : CURLRequest) : DirectiveSet :=
  dictUpdate (baseOptions r) (buildHeadersOption r)

/-- Value of `options` after `options.update(self.build_body_options())`. -/
def optsBody (r : CURLRequest) : DirectiveSet :=
  dictUpdate (optsHeaders r) (buildBodyOptions r).1

/-- Value of `options` after `options.update(self.build_http_method_options())`
(the source runs this after the body options on purpose). -/
def optsMethod (r : CURLRequest) : DirectiveSet :=
  dictUpdate (optsBody r) (buildHttpMethodOptions r)

/-- Value of `options` after `options.update(self.build_timeout_options())`. -/
def optsTimeout (r : CURLRequest) : DirectiveSet :=
  dictUpdate (optsMethod r) (buildTimeoutOptions r)

/-- Value of `options` after `options.update(self.build_ca_options())`. -/
def optsCa (env : Env) (r : CURLRequest) : DirectiveSet :=
  dictUpdate (optsTimeout r) (buildCaOptions env r)

/-- Mirrors `_build_curl_options`: the base literal updated, in order,
with the header, body, method, timeout, CA and certificate patches. -/
def buildCurlOptions (env : Env) (r : CURLRequest) : DirectiveSet :=
  dictUpdate (optsCa env r) (buildCertOptions r)

/-- Mirrors the lazy `options` property: returns the cached dictionary
when present, otherwise computes it, caches it and records the body
stream assigned by `build_body_options`. -/
def optionsGet (env : Env) (r : CURLRequest) : DirectiveSet × CURLRequest :=
  match r.curlOptions with
  | some o => (o, r)
  | none =>
    let o := buildCurlOptions env r
    (o, { r with curlOptions := some o, bodyStream := (buildBodyOptions r).2 })

/-- Replace the body of the underlying request, keeping every other
field of the instance. -/
def withBody (r : CURLRequest) (b : Option Body) : CURLRequest :=
  { r with request := { r.request with body := b } }

/-- Keys of a directive set, in order. -/
def keysOf (d : DirectiveSet) : List OptKey := d.map Prod.fst

theorem dictGet_setKey_self (d : DirectiveSet) (k : OptKey) (v : OptVal) :
    dictGet (setKey d k v) k = some v := by
  induction d with
  | nil => simp [setKey, dictGet]
  | cons p rest ih =>
    by_cases h : p.1 = k
    · simp [setKey, dictGet, h]
    · simp [setKey, dictGet, h, ih]

theorem dictGet_setKey_ne (d : DirectiveSet) (k : OptKey) (v : OptVal)
    (q : OptKey) (h : q ≠ k) : dictGet (setKey d k v) q = dictGet d q := by
  have h' : ¬(k = q) := fun e => h e.symm
  induction d with
  | nil => simp [setKey, dictGet, h']
  | cons p rest ih =>
    by_cases hp : p.1 = k
    · have hpq : ¬(p.1 = q) := by rw [hp]; exact h'
      have hs : setKey (p :: rest) k v = (k, v) :: rest := by simp [setKey, hp]
      rw [hs]
      simp [dictGet, h', hpq]
    · have hs : setKey (p :: rest) k v = p :: setKey rest k v := by simp [setKey, hp]
      rw [hs]
      by_cases hq : p.1 = q
      · simp [dictGet, hq]
      · simp [dictGet, hq, ih]

theorem dictGet_dictUpdate_of_not_key (d patch : DirectiveSet) (k : OptKey)
    (h : ∀ kv ∈ patch, kv.1 ≠ k) :
    dictGet (dictUpdate d patch) k = dictGet d k := by
  induction patch generalizing d with
  | nil => rfl
  | cons kv rest ih =>
    have hk : kv.1 ≠ k := h kv (List.mem_cons_self kv rest)
    calc dictGet (dictUpdate (setKey d kv.1 kv.2) rest) k
        = dictGet (setKey d kv.1 kv.2) k :=
          ih _ (fun x hx => h x (List.mem_cons_of_mem kv hx))
      _ = dictGet d k := dictGet_setKey_ne d kv.1 kv.2 k (fun e => hk e.symm)

theorem mem_keysOf_setKey {d : DirectiveSet} {k : OptKey} {v : OptVal}
    {x : OptKey} (h : x ∈ keysOf (setKey d k v)) : x ∈ keysOf d ∨ x = k := by
  induction d with
  | nil =>
    simp only [setKey, keysOf, List.map_cons, List.map_nil, List.mem_singleton] at h
    exact Or.inr h
  | cons p rest ih =>
    by_cases hp : p.1 = k
    · have hs : setKey (p :: rest) k v = (k, v) :: rest := by simp [setKey, hp]
      rw [hs] at h
      simp only [keysOf, List.map_cons, List.mem_cons] at h ⊢
      rcases h with h | h
      · exact Or.inr h
      · exact Or.inl (Or.inr h)
    · have hs : setKey (p :: rest) k v = p :: setKey rest k v := by simp [setKey, hp]
      rw [hs] at h
      simp only [keysOf, List.map_cons, List.mem_cons] at h ⊢
      rcases h with h | h
      · exact Or.inl (Or.inl h)
      · rcases ih h with h2 | h2
        · exact Or.inl (Or.inr h2)
        · exact Or.inr h2

theorem nodup_keysOf_setKey {d : DirectiveSet} {k : OptKey} {v : OptVal}
    (h : (keysOf d).Nodup) : (keysOf (setKey d k v)).Nodup := by
  induction d with
  | nil => simp [setKey, keysOf]
  | cons p rest ih =>
    obtain ⟨h1, h2⟩ : p.1 ∉ keysOf rest ∧ (keysOf rest).Nodup := by
      simpa only [keysOf, List.map_cons, List.nodup_cons] using h
    by_cases hp : p.1 = k
    · have hs : setKey (p :: rest) k v = (k, v) :: rest := by simp [setKey, hp]
      rw [hs]
      simp only [keysOf, List.map_cons, List.nodup_cons]
      exact ⟨hp ▸ h1, h2⟩
    · have hs : setKey (p :: rest) k v = p :: setKey rest k v := by simp [setKey, hp]
      rw [hs]
      simp only [keysOf, List.map_cons, List.nodup_cons]
      refine ⟨fun hmem => ?_, ih h2⟩
      rcases mem_keysOf_setKey hmem with hx | hx
      · exact h1 hx
      · exact hp hx

theorem nodup_keysOf_dictUpdate (d patch : DirectiveSet)
    (h : (keysOf d).Nodup) : (keysOf (dictUpdate d patch)).Nodup := by
  induction patch generalizing d with
  | nil => exact h
  | cons kv rest ih => exact ih _ (nodup_keysOf_setKey h)

theorem buildHeadersOption_key (r : CURLRequest) :
    ∀ kv ∈ buildHeadersOption r, kv.1 = OptKey.HTTPHEADER := by
  intro kv h
  simp only [buildHeadersOption, List.mem_singleton] at h
  simp [h]

theorem buildBodyOptions_key (r : CURLRequest) :
    ∀ kv ∈ (buildBodyOptions r).1,
      kv.1 = OptKey.NOBODY ∨ kv.1 = OptKey.POSTFIELDS ∨
      kv.1 = OptKey.UPLOAD ∨ kv.1 = OptKey.READFUNCTION := by
  intro kv h
  unfold buildBodyOptions at h
  by_cases hm : r.request.method = some "HEAD"
  · rw [if_pos hm] at h
    simp only [List.mem_singleton] at h
    simp [h]
  · rw [if_neg hm] at h
    by_cases ht : bodyTruthy r.request.body
    · rw [if_pos ht] at h
      rcases hb : r.request.body with _ | b
      · rw [hb] at h; simp at h
      · rw [hb] at h
        by_cases he :
            isEncodedForm
              (pyLower ((headersGet r.request.headers "Content-Type").getD "")) b
        · simp only [he, if_true] at h
          simp only [List.mem_singleton] at h
          simp [h]
        · simp only [he, if_false] at h
          simp at h
          rcases h with h | h
          · simp [h]
          · simp [h]
    · rw [if_neg ht] at h; simp at h

theorem buildHttpMethodOptions_key (r : CURLRequest) :
    ∀ kv ∈ buildHttpMethodOptions r, kv.1 = OptKey.CUSTOMREQUEST := by
  intro kv h
  unfold buildHttpMethodOptions at h
  rcases hr : r.request.method with _ | m
  · rw [hr] at h; simp at h
  · rw [hr] at h
    by_cases he : m = ""
    · simp [he] at h
    · by_cases hu : pyUpper m = "GET"
      · simp [he, hu] at h
      · simp only [he, hu, if_false, ite_false] at h
        simp only [List.mem_singleton] at h
        simp [h]

theorem buildTimeoutOptions_key (r : CURLRequest) :
    ∀ kv ∈ buildTimeoutOptions r,
      kv.1 = OptKey.TIMEOUT_MS ∨ kv.1 = OptKey.CONNECTTIMEOUT_MS := by
  intro kv h
  unfold buildTimeoutOptions at h
  rcases hr : r.timeout with _ | tv
  · rw [hr] at h; simp at h
  · rw [hr] at h
    cases tv with
    | scalar t =>
      by_cases hz : t = 0
      · simp [hz] at h
      · simp only [hz, if_false, ite_false] at h
        simp only [List.mem_singleton] at h
        simp [h]
    | pair conn read =>
      simp at h
      rcases h with h | h
      · simp [h]
      · simp [h]

theorem buildCaOptions_key (env : Env) (r : CURLRequest) :
    ∀ kv ∈ buildCaOptions env r,
      kv.1 = OptKey.SSL_VERIFYHOST ∨ kv.1 = OptKey.SSL_VERIFYPEER ∨
      kv.1 = OptKey.CAPATH ∨ kv.1 = OptKey.CAINFO := by
  intro kv h
  unfold buildCaOptions at h
  by_cases hv : verifyTruthy r.verify
  · rw [if_pos hv] at h
    by_cases hd : env.isDir (caValue env r)
    · simp only [hd, if_true] at h
      simp at h
      rcases h with h | h | h
      · simp [h]
      · simp [h]
      · simp [h]
    · simp only [hd, if_false] at h
      simp at h
      rcases h with h | h | h
      · simp [h]
      · simp [h]
      · simp [h]
  · rw [if_neg hv] at h
    simp at h
    rcases h with h | h
    · simp [h]
    · simp [h]

theorem buildCertOptions_key (r : CURLRequest) :
    ∀ kv ∈ buildCertOptions r,
      kv.1 = OptKey.SSLCERT ∨ kv.1 = OptKey.SSLKEY := by
  intro kv h
  unfold buildCertOptions at h
  by_cases hc : certTruthy r.cert
  · rw [if_pos hc] at h
    rcases hr : r.cert with _ | cv
    · rw [hr] at h; simp at h
    · rw [hr] at h
      cases cv with
      | single p =>
        simp at h
        simp [h]
      | pair c k =>
        simp at h
        rcases h with h | h
        · simp [h]
        · simp [h]
  · rw [if_neg hc] at h; simp at h

theorem dictGet_skip_cert (env : Env) (r : CURLRequest) (k : OptKey)
    (h1 : k ≠ OptKey.SSLCERT) (h2 : k ≠ OptKey.SSLKEY) :
    dictGet (buildCurlOptions env r) k = dictGet (optsCa env r) k := by
  unfold buildCurlOptions
  refine dictGet_dictUpdate_of_not_key _ _ _ (fun kv hm => ?_)
  rcases buildCertOptions_key r kv hm with h | h
  · rw [h]; exact Ne.symm h1
  · rw [h]; exact Ne.symm h2

theorem dictGet_skip_ca (env : Env) (r : CURLRequest) (k : OptKey)
    (h1 : k ≠ OptKey.SSL_VERIFYHOST) (h2 : k ≠ OptKey.SSL_VERIFYPEER)
    (h3 : k ≠ OptKey.CAPATH) (h4 : k ≠ OptKey.CAINFO) :
    dictGet (optsCa env r) k = dictGet (optsTimeout r) k := by
  unfold optsCa
  refine dictGet_dictUpdate_of_not_key _ _ _ (fun kv hm => ?_)
  rcases buildCaOptions_key env r kv hm with h | h | h | h
  · rw [h]; exact Ne.symm h1
  · rw [h]; exact Ne.symm h2
  · rw [h]; exact Ne.symm h3
  · rw [h]; exact Ne.symm h4

theorem dictGet_skip_timeout (r : CURLRequest) (k : OptKey)
    (h1 : k ≠ OptKey.TIMEOUT_MS) (h2 : k ≠ OptKey.CONNECTTIMEOUT_MS) :
    dictGet (optsTimeout r) k = dictGet (optsMethod r) k := by
  unfold optsTimeout
  refine dictGet_dictUpdate_of_not_key _ _ _ (fun kv hm => ?_)
  rcases buildTimeoutOptions_key r kv hm with h | h
  · rw [h]; exact Ne.symm h1
  · rw [h]; exact Ne.symm h2

theorem dictGet_skip_method (r : CURLRequest) (k : OptKey)
    (h1 : k ≠ OptKey.CUSTOMREQUEST) :
    dictGet (optsMethod r) k = dictGet (optsBody r) k := by
  unfold optsMethod
  refine dictGet_dictUpdate_of_not_key _ _ _ (fun kv hm => ?_)
  rw [buildHttpMethodOptions_key r kv hm]
  exact Ne.symm h1

theorem dictGet_skip_body (r : CURLRequest) (k : OptKey)
    (h1 : k ≠ OptKey.NOBODY) (h2 : k ≠ OptKey.POSTFIELDS)
    (h3 : k ≠ OptKey.UPLOAD) (h4 : k ≠ OptKey.READFUNCTION) :
    dictGet (optsBody r) k = dictGet (optsHeaders r) k := by
  unfold optsBody
  refine dictGet_dictUpdate_of_not_key _ _ _ (fun kv hm => ?_)
  rcases buildBodyOptions_key r kv hm with h | h | h | h
  · rw [h]; exact Ne.symm h1
  · rw [h]; exact Ne.symm h2
  · rw [h]; exact Ne.symm h3
  · rw [h]; exact Ne.symm h4

theorem dictGet_skip_headers (r : CURLRequest) (k : OptKey)
    (h1 : k ≠ OptKey.HTTPHEADER) :
    dictGet (optsHeaders r) k = dictGet (baseOptions r) k := by
  unfold optsHeaders
  refine dictGet_dictUpdate_of_not_key _ _ _ (fun kv hm => ?_)
  rw [buildHeadersOption_key r kv hm]
  exact Ne.symm h1

/-- Lookup in the final merged set reduces to the base literal whenever
the key belongs to none of the per-request derivation steps. -/
theorem dictGet_skip_to_base (env : Env) (r : CURLRequest) (k : OptKey)
    (h1 : k ≠ OptKey.SSLCERT) (h2 : k ≠ OptKey.SSLKEY)
    (h3 : k ≠ OptKey.SSL_VERIFYHOST) (h4 : k ≠ OptKey.SSL_VERIFYPEER)
    (h5 : k ≠ OptKey.CAPATH) (h6 : k ≠ OptKey.CAINFO)
    (h7 : k ≠ OptKey.TIMEOUT_MS) (h8 : k ≠ OptKey.CONNECTTIMEOUT_MS)
    (h9 : k ≠ OptKey.CUSTOMREQUEST)
    (h10 : k ≠ OptKey.NOBODY) (h11 : k ≠ OptKey.POSTFIELDS)
    (h12 : k ≠ OptKey.UPLOAD) (h13 : k ≠ OptKey.READFUNCTION)
    (h14 : k ≠ OptKey.HTTPHEADER) :
    dictGet (buildCurlOptions env r) k = dictGet (baseOptions r) k := by
  rw [dictGet_skip_cert env r k h1 h2, dictGet_skip_ca env r k h3 h4 h5 h6,
    dictGet_skip_timeout r k h7 h8, dictGet_skip_method r k h9,
    dictGet_skip_body r k h10 h11 h12 h13, dictGet_skip_headers r k h14]

/-- The keys that any of the six per-request derivation steps may touch. -/
def dynamicKeys : List OptKey :=
  [.SSLCERT, .SSLKEY, .SSL_VERIFYHOST, .SSL_VERIFYPEER, .CAPATH, .CAINFO,
   .TIMEOUT_MS, .CONNECTTIMEOUT_MS, .CUSTOMREQUEST, .NOBODY, .POSTFIELDS,
   .UPLOAD, .READFUNCTION, .HTTPHEADER]

theorem dictGet_skip_to_base_of_not_mem (env : Env) (r : CURLRequest)
    (k : OptKey) (h : k ∉ dynamicKeys) :
    dictGet (buildCurlOptions env r) k = dictGet (baseOptions r) k := by
  refine dictGet_skip_to_base env r k ?_ ?_ ?_ ?_ ?_ ?_ ?_ ?_ ?_ ?_ ?_ ?_ ?_ ?_ <;>
    · intro e; subst e; simp [dynamicKeys] at h

end RequestsCurl

namespace RequestsCurl

/-- C9: for every descriptor and policy, the final merged directive set
contains the fixed static directives with unchanged values (target URL,
comma-joined cipher list in documented order, HTTP/2 preference, TLS 1.2
floor, "brotli" certificate compression, the "masp" pseudo-header
ordering token, the NPN disable flag, follow-redirects, the verbosity
passthrough and the cookie-jar location); none of these keys is
overwritten by the per-request derivation steps. -/
theorem static_directives_present (env : Env) (r : CURLRequest) :
    dictGet (buildCurlOptions env r) OptKey.URL = some (.str r.request.url) ∧
    dictGet (buildCurlOptions env r) OptKey.SSL_CIPHER_LIST
      = some (.str (String.intercalate "," cipherList)) ∧
    dictGet (buildCurlOptions env r) OptKey.HTTP_VERSION
      = some (.num CURL_HTTP_VERSION_2_0) ∧
    dictGet (buildCurlOptions env r) OptKey.SSLVERSION
      = some (.num SSLVERSION_TLSv1_2) ∧
    dictGet (buildCurlOptions env r) OptKey.SSL_CERT_COMPRESSION
      = some (.str "brotli") ∧
    dictGet (buildCurlOptions env r) OptKey.HTTP2_PSEUDO_HEADERS_ORDER
      = some (.str "masp") ∧
    dictGet (buildCurlOptions env r) OptKey.SSL_ENABLE_NPN = some (.num 0) ∧
    dictGet (buildCurlOptions env r) OptKey.FOLLOWLOCATION = some (.num 1) ∧
    dictGet (buildCurlOptions env r) OptKey.VERBOSE = some (.num r.verbose) ∧
    dictGet (buildCurlOptions env r) OptKey.COOKIEJAR = some (.str r.cookies) := by
  refine ⟨?_, ?_, ?_, ?_, ?_, ?_, ?_, ?_, ?_, ?_⟩ <;>
    · rw [dictGet_skip_to_base_of_not_mem env r _ (by decide)]; rfl

/-- C7: the derivation is total over its declared input space: for every
well-shaped descriptor and policy (and any filesystem state) it computes
a directive set, and that set is a well-formed dictionary whose keys are
unique. -/
theorem derivation_total (env : Env) (r : CURLRequest) :
    ∃ ds : DirectiveSet, buildCurlOptions env r = ds ∧ (keysOf ds).Nodup := by
  refine ⟨buildCurlOptions env r, rfl, ?_⟩
  have hb : (keysOf (baseOptions r)).Nodup := by
    have he : keysOf (baseOptions r) =
        [OptKey.URL, .SSL_CIPHER_LIST, .HTTP_VERSION, .SSLVERSION,
         .SSL_ENABLE_ALPS, .SSL_CERT_COMPRESSION, .HTTP2_PSEUDO_HEADERS_ORDER,
         .SSL_ENABLE_NPN, .VERBOSE, .FOLLOWLOCATION, .COOKIEJAR] := rfl
    rw [he]; decide
  exact nodup_keysOf_dictUpdate (optsCa env r) (buildCertOptions r)
    (nodup_keysOf_dictUpdate (optsTimeout r) (buildCaOptions env r)
      (nodup_keysOf_dictUpdate (optsMethod r) (buildTimeoutOptions r)
        (nodup_keysOf_dictUpdate (optsBody r) (buildHttpMethodOptions r)
          (nodup_keysOf_dictUpdate (optsHeaders r) (buildBodyOptions r).1
            (nodup_keysOf_dictUpdate (baseOptions r) (buildHeadersOption r) hb)))))

/-- C8: on a freshly constructed instance the lazy `options` property
returns exactly the pure derivation result, and reading it a second time
on the resulting instance returns an identical directive set (the
memoization changes no observable value). -/
theorem options_memoized_idempotent (env : Env) (request : Descriptor)
    (timeout : Option TimeoutVal) (verify : Option VerifyVal)
    (cert : Option CertVal) (verbose : Int) :
    (optionsGet env (mkCURLRequest request timeout verify cert verbose)).1
      = buildCurlOptions env (mkCURLRequest request timeout verify cert verbose) ∧
    (optionsGet env ((optionsGet env (mkCURLRequest request timeout verify cert verbose)).2)).1
      = (optionsGet env (mkCURLRequest request timeout verify cert verbose)).1 :=
  ⟨rfl, rfl⟩

/-- Keys written by the stages that run before the method stage. -/
def preMethodKeys : List OptKey :=
  [.NOBODY, .POSTFIELDS, .UPLOAD, .READFUNCTION, .HTTPHEADER]

/-- Keys written by the stages that run before the timeout stage. -/
def preTimeoutKeys : List OptKey := OptKey.CUSTOMREQUEST :: preMethodKeys

/-- Keys written by the stages that run before the CA stage. -/
def preCaKeys : List OptKey :=
  OptKey.TIMEOUT_MS :: OptKey.CONNECTTIMEOUT_MS :: preTimeoutKeys

theorem dictGet_optsBody_of_not_mem (r : CURLRequest) (k : OptKey)
    (h : k ∉ preMethodKeys) :
    dictGet (optsBody r) k = dictGet (baseOptions r) k := by
  have t : ∀ x ∈ preMethodKeys, k ≠ x := fun x hx e => h (e ▸ hx)
  rw [dictGet_skip_body r k (t OptKey.NOBODY (by decide))
      (t OptKey.POSTFIELDS (by decide)) (t OptKey.UPLOAD (by decide))
      (t OptKey.READFUNCTION (by decide)),
    dictGet_skip_headers r k (t OptKey.HTTPHEADER (by decide))]

theorem dictGet_optsMethod_of_not_mem (r : CURLRequest) (k : OptKey)
    (h : k ∉ preTimeoutKeys) :
    dictGet (optsMethod r) k = dictGet (baseOptions r) k := by
  have t : ∀ x ∈ preTimeoutKeys, k ≠ x := fun x hx e => h (e ▸ hx)
  rw [dictGet_skip_method r k (t OptKey.CUSTOMREQUEST (by decide))]
  exact dictGet_optsBody_of_not_mem r k
    (fun hm => h (List.mem_cons_of_mem _ hm))

theorem dictGet_optsTimeout_of_not_mem (r : CURLRequest) (k : OptKey)
    (h : k ∉ preCaKeys) :
    dictGet (optsTimeout r) k = dictGet (baseOptions r) k := by
  have t : ∀ x ∈ preCaKeys, k ≠ x := fun x hx e => h (e ▸ hx)
  rw [dictGet_skip_timeout r k (t OptKey.TIMEOUT_MS (by decide))
      (t OptKey.CONNECTTIMEOUT_MS (by decide))]
  exact dictGet_optsMethod_of_not_mem r k
    (fun hm => h (List.mem_cons_of_mem _ (List.mem_cons_of_mem _ hm)))

/-- C3 (amended): the custom-method directive of the final merged set is
absent when the method is absent, empty, or uppercases to GET, and is
otherwise present with the uppercased method as its value — regardless
of what the body derivation emitted. -/
theorem custom_method_directive (env : Env) (r : CURLRequest) :
    dictGet (buildCurlOptions env r) OptKey.CUSTOMREQUEST =
      (match r.request.method with
       | none => none
       | some m =>
         if m = "" ∨ pyUpper m = "GET" then none
         else some (OptVal.str (pyUpper m))) := by
  rw [dictGet_skip_cert env r _ (by decide) (by decide),
    dictGet_skip_ca env r _ (by decide) (by decide) (by decide) (by decide),
    dictGet_skip_timeout r _ (by decide) (by decide)]
  have hnone : dictGet (optsBody r) OptKey.CUSTOMREQUEST = none := by
    rw [dictGet_optsBody_of_not_mem r _ (by decide)]; rfl
  unfold optsMethod buildHttpMethodOptions
  rcases hr : r.request.method with _ | m
  · simpa [dictUpdate] using hnone
  · by_cases he : m = ""
    · simp [he, dictUpdate, hnone]
    · by_cases hu : pyUpper m = "GET"
      · simp [he, hu, dictUpdate, hnone]
      · simp [he, hu, dictUpdate, dictGet_setKey_self]

/-- C3 counterexample input: a descriptor whose method is the empty
string. -/
def rEmptyMethod : CURLRequest :=
  mkCURLRequest
    { url := "http://example.com/", method := some "",
      headers := [], body := none }
    none none none 0

/-- Filesystem-free environment used for concrete evaluations. -/
def envA : Env :=
  { isDir := fun _ => false, defaultCABundlePath := "/default/cacert.pem" }

/-- C3 counterexample: with method `""` (a string that is neither absent
nor "get" in any case) the code emits no custom-method directive, while
the claim as stated requires one with value `"".upper() = ""`. -/
theorem custom_method_empty_counterexample :
    ¬(dictGet (buildCurlOptions envA rEmptyMethod) OptKey.CUSTOMREQUEST
        = some (OptVal.str "")) := by decide

theorem pyInt_pair_total : pyInt (1000 * ((2 : ℚ) + 5)) = 7000 := by
  have h : (1000 : ℚ) * (2 + 5) = 7000 := by norm_num
  unfold pyInt
  rw [h, Rat.num_ofNat, Rat.den_ofNat]
  decide

theorem pyInt_pair_conn : pyInt (1000 * (2 : ℚ)) = 2000 := by
  have h : (1000 : ℚ) * 2 = 2000 := by norm_num
  unfold pyInt
  rw [h, Rat.num_ofNat, Rat.den_ofNat]
  decide

theorem pyInt_scalar_half : pyInt (1000 * ((7 : ℚ) / 2)) = 3500 := by
  have h : (1000 : ℚ) * (7 / 2) = 3500 := by norm_num
  unfold pyInt
  rw [h, Rat.num_ofNat, Rat.den_ofNat]
  decide

theorem dictGet_timeout_ms (env : Env) (r : CURLRequest) :
    dictGet (buildCurlOptions env r) OptKey.TIMEOUT_MS =
      (match r.timeout with
       | none => none
       | some (.scalar t) =>
         if t = 0 then none else some (OptVal.num (pyInt (1000 * t)))
       | some (.pair conn read) =>
         some (OptVal.num (pyInt (1000 * (conn + read))))) := by
  rw [dictGet_skip_cert env r _ (by decide) (by decide),
    dictGet_skip_ca env r _ (by decide) (by decide) (by decide) (by decide)]
  have hnone : dictGet (optsMethod r) OptKey.TIMEOUT_MS = none := by
    rw [dictGet_optsMethod_of_not_mem r _ (by decide)]; rfl
  unfold optsTimeout buildTimeoutOptions
  rcases ht : r.timeout with _ | tv
  · simpa [dictUpdate] using hnone
  · cases tv with
    | scalar t =>
      by_cases hz : t = 0
      · simp [hz, dictUpdate, hnone]
      · simp [hz, dictUpdate, dictGet_setKey_self]
    | pair conn _read =>
      simp only [dictUpdate]
      rw [dictGet_setKey_ne _ _ _ _ (by decide), dictGet_setKey_self]

theorem dictGet_connecttimeout_ms (env : Env) (r : CURLRequest) :
    dictGet (buildCurlOptions env r) OptKey.CONNECTTIMEOUT_MS =
      (match r.timeout with
       | some (.pair conn _read) => some (OptVal.num (pyInt (1000 * conn)))
       | _ => none) := by
  rw [dictGet_skip_cert env r _ (by decide) (by decide),
    dictGet_skip_ca env r _ (by decide) (by decide) (by decide) (by decide)]
  have hnone : dictGet (optsMethod r) OptKey.CONNECTTIMEOUT_MS = none := by
    rw [dictGet_optsMethod_of_not_mem r _ (by decide)]; rfl
  unfold optsTimeout buildTimeoutOptions
  rcases ht : r.timeout with _ | tv
  · simpa [dictUpdate] using hnone
  · cases tv with
    | scalar t =>
      by_cases hz : t = 0
      · simp [hz, dictUpdate, hnone]
      · simp only [hz, ite_false, if_neg, dictUpdate]
        rw [dictGet_setKey_ne _ _ _ _
          (show OptKey.CONNECTTIMEOUT_MS ≠ OptKey.TIMEOUT_MS by decide)]
        simpa using hnone
    | pair conn _read =>
      simp only [dictUpdate]
      rw [dictGet_setKey_self]

/-- C4 (amended): a (connect, read) timeout pair yields both the total
and the connect timeout directives (milliseconds, truncated); a nonzero
scalar yields only the total directive; a zero scalar — falsy in the
source, exactly like an absent timeout — yields neither.  In particular
(2, 5) yields 7000/2000 and the scalar 7/2 yields 3500 with no connect
directive. -/
theorem timeout_directive_derivation (env : Env) (r : CURLRequest) :
    (dictGet (buildCurlOptions env r) OptKey.TIMEOUT_MS =
      (match r.timeout with
       | none => none
       | some (.scalar t) =>
         if t = 0 then none else some (OptVal.num (pyInt (1000 * t)))
       | some (.pair conn read) =>
         some (OptVal.num (pyInt (1000 * (conn + read)))))) ∧
    (dictGet (buildCurlOptions env r) OptKey.CONNECTTIMEOUT_MS =
      (match r.timeout with
       | some (.pair conn _read) => some (OptVal.num (pyInt (1000 * conn)))
       | _ => none)) ∧
    dictGet (buildCurlOptions env { r with timeout := some (.pair 2 5) })
      OptKey.TIMEOUT_MS = some (OptVal.num 7000) ∧
    dictGet (buildCurlOptions env { r with timeout := some (.pair 2 5) })
      OptKey.CONNECTTIMEOUT_MS = some (OptVal.num 2000) ∧
    dictGet (buildCurlOptions env { r with timeout := some (.scalar (7 / 2)) })
      OptKey.TIMEOUT_MS = some (OptVal.num 3500) ∧
    dictGet (buildCurlOptions env { r with timeout := some (.scalar (7 / 2)) })
      OptKey.CONNECTTIMEOUT_MS = none ∧
    dictGet (buildCurlOptions env { r with timeout := none })
      OptKey.TIMEOUT_MS = none ∧
    dictGet (buildCurlOptions env { r with timeout := none })
      OptKey.CONNECTTIMEOUT_MS = none := by
  refine ⟨dictGet_timeout_ms env r, dictGet_connecttimeout_ms env r,
    ?_, ?_, ?_, ?_, ?_, ?_⟩
  · rw [dictGet_timeout_ms env _]
    show some (OptVal.num (pyInt (1000 * ((2 : ℚ) + 5)))) = _
    rw [pyInt_pair_total]
  · rw [dictGet_connecttimeout_ms env _]
    show some (OptVal.num (pyInt (1000 * (2 : ℚ)))) = _
    rw [pyInt_pair_conn]
  · rw [dictGet_timeout_ms env _]
    have hz : ¬((7 : ℚ) / 2 = 0) := by norm_num
    show (if (7 : ℚ) / 2 = 0 then none
          else some (OptVal.num (pyInt (1000 * ((7 : ℚ) / 2))))) = _
    rw [if_neg hz, pyInt_scalar_half]
  · rw [dictGet_connecttimeout_ms env _]
  · rw [dictGet_timeout_ms env _]
  · rw [dictGet_connecttimeout_ms env _]

/-- C4 counterexample input: a policy whose timeout is the scalar 0. -/
def rZeroTimeout : CURLRequest :=
  mkCURLRequest
    { url := "http://example.com/", method := none, headers := [], body := none }
    (some (.scalar 0)) none none 0

/-- C4 counterexample: for the scalar timeout 0 the claim as stated
requires a total-timeout directive with value `int(1000 * 0) = 0`, but
the code treats a zero scalar as falsy and emits no timeout directive at
all. -/
theorem timeout_zero_scalar_counterexample :
    ¬(dictGet (buildCurlOptions envA rZeroTimeout) OptKey.TIMEOUT_MS
        = some (OptVal.num 0)) := by
  have h : dictGet (buildCurlOptions envA rZeroTimeout) OptKey.TIMEOUT_MS
      = none := by
    rw [dictGet_timeout_ms envA rZeroTimeout]
    simp [rZeroTimeout, mkCURLRequest]
  rw [h]
  simp

theorem dictGet_to_optsBody (env : Env) (r : CURLRequest) (k : OptKey)
    (h1 : k ≠ OptKey.SSLCERT) (h2 : k ≠ OptKey.SSLKEY)
    (h3 : k ≠ OptKey.SSL_VERIFYHOST) (h4 : k ≠ OptKey.SSL_VERIFYPEER)
    (h5 : k ≠ OptKey.CAPATH) (h6 : k ≠ OptKey.CAINFO)
    (h7 : k ≠ OptKey.TIMEOUT_MS) (h8 : k ≠ OptKey.CONNECTTIMEOUT_MS)
    (h9 : k ≠ OptKey.CUSTOMREQUEST) :
    dictGet (buildCurlOptions env r) k = dictGet (optsBody r) k := by
  rw [dictGet_skip_cert env r k h1 h2, dictGet_skip_ca env r k h3 h4 h5 h6,
    dictGet_skip_timeout r k h7 h8, dictGet_skip_method r k h9]

/-- C5: falsy verify yields both verification directives with value 0
and no CA-source directive; truthy verify yields strict verification
(value 2) plus exactly one CA-source directive, under the CA-directory
key when the resolved value is a directory and the CA-file key
otherwise, where the resolved value is the verify path for a string
verify and the fixed default CA bundle path otherwise. -/
theorem ca_verification_directives (env : Env) (r : CURLRequest) :
    dictGet (buildCurlOptions env r) OptKey.SSL_VERIFYHOST
      = some (OptVal.num (if verifyTruthy r.verify then 2 else 0)) ∧
    dictGet (buildCurlOptions env r) OptKey.SSL_VERIFYPEER
      = some (OptVal.num (if verifyTruthy r.verify then 2 else 0)) ∧
    dictGet (buildCurlOptions env r) OptKey.CAPATH
      = (if verifyTruthy r.verify && env.isDir (caValue env r)
         then some (OptVal.str (caValue env r)) else none) ∧
    dictGet (buildCurlOptions env r) OptKey.CAINFO
      = (if verifyTruthy r.verify && !(env.isDir (caValue env r))
         then some (OptVal.str (caValue env r)) else none) ∧
    caValue env r = (match r.verify with
      | some (.path s) => s
      | _ => env.defaultCABundlePath) := by
  have huVH : dictGet (optsTimeout r) OptKey.SSL_VERIFYHOST = none := by
    rw [dictGet_optsTimeout_of_not_mem r _ (by decide)]; rfl
  have huVP : dictGet (optsTimeout r) OptKey.SSL_VERIFYPEER = none := by
    rw [dictGet_optsTimeout_of_not_mem r _ (by decide)]; rfl
  have huCP : dictGet (optsTimeout r) OptKey.CAPATH = none := by
    rw [dictGet_optsTimeout_of_not_mem r _ (by decide)]; rfl
  have huCI : dictGet (optsTimeout r) OptKey.CAINFO = none := by
    rw [dictGet_optsTimeout_of_not_mem r _ (by decide)]; rfl
  by_cases hv : verifyTruthy r.verify
  · by_cases hd : env.isDir (caValue env r)
    · have hpatch : buildCaOptions env r =
          [(OptKey.SSL_VERIFYHOST, OptVal.num 2),
           (OptKey.SSL_VERIFYPEER, OptVal.num 2),
           (OptKey.CAPATH, OptVal.str (caValue env r))] := by
        simp [buildCaOptions, hv, hd]
      refine ⟨?_, ?_, ?_, ?_, rfl⟩
      · rw [dictGet_skip_cert env r _ (by decide) (by decide)]
        unfold optsCa; rw [hpatch]
        simp only [dictUpdate]
        rw [dictGet_setKey_ne _ _ _ _ (by decide),
          dictGet_setKey_ne _ _ _ _ (by decide), dictGet_setKey_self]
        simp [hv]
      · rw [dictGet_skip_cert env r _ (by decide) (by decide)]
        unfold optsCa; rw [hpatch]
        simp only [dictUpdate]
        rw [dictGet_setKey_ne _ _ _ _ (by decide), dictGet_setKey_self]
        simp [hv]
      · rw [dictGet_skip_cert env r _ (by decide) (by decide)]
        unfold optsCa; rw [hpatch]
        simp only [dictUpdate]
        rw [dictGet_setKey_self]
        simp [hv, hd]
      · rw [dictGet_skip_cert env r _ (by decide) (by decide)]
        unfold optsCa; rw [hpatch]
        simp only [dictUpdate]
        rw [dictGet_setKey_ne _ _ _ _ (by decide),
          dictGet_setKey_ne _ _ _ _ (by decide),
          dictGet_setKey_ne _ _ _ _ (by decide), huCI]
        simp [hv, hd]
    · have hd' : env.isDir (caValue env r) = false := Bool.eq_false_iff.mpr hd
      have hpatch : buildCaOptions env r =
          [(OptKey.SSL_VERIFYHOST, OptVal.num 2),
           (OptKey.SSL_VERIFYPEER, OptVal.num 2),
           (OptKey.CAINFO, OptVal.str (caValue env r))] := by
        simp [buildCaOptions, hv, hd']
      refine ⟨?_, ?_, ?_, ?_, rfl⟩
      · rw [dictGet_skip_cert env r _ (by decide) (by decide)]
        unfold optsCa; rw [hpatch]
        simp only [dictUpdate]
        rw [dictGet_setKey_ne _ _ _ _ (by decide),
          dictGet_setKey_ne _ _ _ _ (by decide), dictGet_setKey_self]
        simp [hv]
      · rw [dictGet_skip_cert env r _ (by decide) (by decide)]
        unfold optsCa; rw [hpatch]
        simp only [dictUpdate]
        rw [dictGet_setKey_ne _ _ _ _ (by decide), dictGet_setKey_self]
        simp [hv]
      · rw [dictGet_skip_cert env r _ (by decide) (by decide)]
        unfold optsCa; rw [hpatch]
        simp only [dictUpdate]
        rw [dictGet_setKey_ne _ _ _ _ (by decide),
          dictGet_setKey_ne _ _ _ _ (by decide),
          dictGet_setKey_ne _ _ _ _ (by decide), huCP]
        simp [hd']
      · rw [dictGet_skip_cert env r _ (by decide) (by decide)]
        unfold optsCa; rw [hpatch]
        simp only [dictUpdate]
        rw [dictGet_setKey_self]
        simp [hv, hd']
  · have hv' : verifyTruthy r.verify = false := Bool.eq_false_iff.mpr hv
    have hpatch : buildCaOptions env r =
        [(OptKey.SSL_VERIFYHOST, OptVal.num 0),
         (OptKey.SSL_VERIFYPEER, OptVal.num 0)] := by
      simp [buildCaOptions, hv']
    refine ⟨?_, ?_, ?_, ?_, rfl⟩
    · rw [dictGet_skip_cert env r _ (by decide) (by decide)]
      unfold optsCa; rw [hpatch]
      simp only [dictUpdate]
      rw [dictGet_setKey_ne _ _ _ _ (by decide), dictGet_setKey_self]
      simp [hv']
    · rw [dictGet_skip_cert env r _ (by decide) (by decide)]
      unfold optsCa; rw [hpatch]
      simp only [dictUpdate]
      rw [dictGet_setKey_self]
      simp [hv']
    · rw [dictGet_skip_cert env r _ (by decide) (by decide)]
      unfold optsCa; rw [hpatch]
      simp only [dictUpdate]
      rw [dictGet_setKey_ne _ _ _ _ (by decide),
        dictGet_setKey_ne _ _ _ _ (by decide), huCP]
      simp [hv']
    · rw [dictGet_skip_cert env r _ (by decide) (by decide)]
      unfold optsCa; rw [hpatch]
      simp only [dictUpdate]
      rw [dictGet_setKey_ne _ _ _ _ (by decide),
        dictGet_setKey_ne _ _ _ _ (by decide), huCI]
      simp [hv']

/-- C2: with method HEAD the final directive set holds no buffered-field,
upload-mode or read-callback directive, and the derivation result does
not depend on the body value at all (the body is never evaluated). -/
theorem head_suppresses_body (env : Env) (r : CURLRequest)
    (h : r.request.method = some "HEAD") :
    dictGet (buildCurlOptions env r) OptKey.POSTFIELDS = none ∧
    dictGet (buildCurlOptions env r) OptKey.UPLOAD = none ∧
    dictGet (buildCurlOptions env r) OptKey.READFUNCTION = none ∧
    ∀ b : Option Body,
      buildCurlOptions env (withBody r b) = buildCurlOptions env r := by
  have hpatch : (buildBodyOptions r).1 = [(OptKey.NOBODY, OptVal.flag true)] := by
    simp [buildBodyOptions, h]
  refine ⟨?_, ?_, ?_, ?_⟩
  · rw [dictGet_to_optsBody env r _ (by decide) (by decide) (by decide) (by decide)
      (by decide) (by decide) (by decide) (by decide) (by decide)]
    unfold optsBody; rw [hpatch]
    simp only [dictUpdate]
    rw [dictGet_setKey_ne _ _ _ _ (by decide),
      dictGet_skip_headers r _ (by decide)]
    rfl
  · rw [dictGet_to_optsBody env r _ (by decide) (by decide) (by decide) (by decide)
      (by decide) (by decide) (by decide) (by decide) (by decide)]
    unfold optsBody; rw [hpatch]
    simp only [dictUpdate]
    rw [dictGet_setKey_ne _ _ _ _ (by decide),
      dictGet_skip_headers r _ (by decide)]
    rfl
  · rw [dictGet_to_optsBody env r _ (by decide) (by decide) (by decide) (by decide)
      (by decide) (by decide) (by decide) (by decide) (by decide)]
    unfold optsBody; rw [hpatch]
    simp only [dictUpdate]
    rw [dictGet_setKey_ne _ _ _ _ (by decide),
      dictGet_skip_headers r _ (by decide)]
    rfl
  · intro b
    have hb : (buildBodyOptions (withBody r b)).1
        = [(OptKey.NOBODY, OptVal.flag true)] := by
      simp [buildBodyOptions, withBody, h]
    unfold buildCurlOptions optsCa optsTimeout optsMethod optsBody optsHeaders
    rw [hb, hpatch]
    rfl

/-- Concrete HEAD request used to witness C2. -/
def rHead : CURLRequest :=
  mkCURLRequest
    { url := "http://example.com/h", method := some "HEAD",
      headers := [], body := some (.text "payload") }
    none none none 0

/-- Witness for C2: the theorem applied to a HEAD descriptor carrying a
non-empty body. -/
theorem head_suppresses_body_witness :
    rHead.request.method = some "HEAD" ∧
    (dictGet (buildCurlOptions envA rHead) OptKey.POSTFIELDS = none ∧
     dictGet (buildCurlOptions envA rHead) OptKey.UPLOAD = none ∧
     dictGet (buildCurlOptions envA rHead) OptKey.READFUNCTION = none ∧
     ∀ b : Option Body,
       buildCurlOptions envA (withBody rHead b) = buildCurlOptions envA rHead) :=
  ⟨rfl, head_suppresses_body envA rHead rfl⟩

/-- C6: a stream-like body (on a non-HEAD method) yields the streaming
upload directives, with the read callback bound to the caller-supplied
stream object itself (identity preserved, no buffer copy), and no
buffered-field directive. -/
theorem stream_body_streaming (env : Env) (r : CURLRequest) (i : Nat)
    (hb : r.request.body = some (.stream i))
    (hm : r.request.method ≠ some "HEAD") :
    dictGet (buildCurlOptions env r) OptKey.UPLOAD = some (OptVal.flag true) ∧
    dictGet (buildCurlOptions env r) OptKey.READFUNCTION
      = some (OptVal.readCallback (StreamSrc.caller i)) ∧
    dictGet (buildCurlOptions env r) OptKey.POSTFIELDS = none := by
  have hpatch : (buildBodyOptions r).1 =
      [(OptKey.UPLOAD, OptVal.flag true),
       (OptKey.READFUNCTION, OptVal.readCallback (StreamSrc.caller i))] := by
    simp [buildBodyOptions, hm, hb, bodyTruthy, isEncodedForm,
      Body.isStr, Body.isBytes, Body.hasRead]
  refine ⟨?_, ?_, ?_⟩
  · rw [dictGet_to_optsBody env r _ (by decide) (by decide) (by decide) (by decide)
      (by decide) (by decide) (by decide) (by decide) (by decide)]
    unfold optsBody; rw [hpatch]
    simp only [dictUpdate]
    rw [dictGet_setKey_ne _ _ _ _ (by decide), dictGet_setKey_self]
  · rw [dictGet_to_optsBody env r _ (by decide) (by decide) (by decide) (by decide)
      (by decide) (by decide) (by decide) (by decide) (by decide)]
    unfold optsBody; rw [hpatch]
    simp only [dictUpdate]
    rw [dictGet_setKey_self]
  · rw [dictGet_to_optsBody env r _ (by decide) (by decide) (by decide) (by decide)
      (by decide) (by decide) (by decide) (by decide) (by decide)]
    unfold optsBody; rw [hpatch]
    simp only [dictUpdate]
    rw [dictGet_setKey_ne _ _ _ _ (by decide),
      dictGet_setKey_ne _ _ _ _ (by decide),
      dictGet_skip_headers r _ (by decide)]
    rfl

/-- Concrete request with a stream body used to witness C6. -/
def rStream : CURLRequest :=
  mkCURLRequest
    { url := "http://example.com/s", method := some "POST",
      headers := [], body := some (.stream 7) }
    none none none 0

/-- Witness for C6: the theorem applied to a POST descriptor whose body
is the caller stream number 7. -/
theorem stream_body_streaming_witness :
    rStream.request.body = some (Body.stream 7) ∧
    rStream.request.method ≠ some "HEAD" ∧
    (dictGet (buildCurlOptions envA rStream) OptKey.UPLOAD
       = some (OptVal.flag true) ∧
     dictGet (buildCurlOptions envA rStream) OptKey.READFUNCTION
       = some (OptVal.readCallback (StreamSrc.caller 7)) ∧
     dictGet (buildCurlOptions envA rStream) OptKey.POSTFIELDS = none) :=
  ⟨rfl, by decide, stream_body_streaming envA rStream 7 rfl (by decide)⟩

/-- C10: a present but empty body (empty string or empty bytes) on a
non-HEAD method is falsy in the source and yields no body directive at
all; the derivation result equals the one for an absent body. -/
theorem empty_body_like_absent (env : Env) (r : CURLRequest)
    (hm : r.request.method ≠ some "HEAD")
    (hb : r.request.body = some (.text "") ∨ r.request.body = some (.bytes [])) :
    dictGet (buildCurlOptions env r) OptKey.POSTFIELDS = none ∧
    dictGet (buildCurlOptions env r) OptKey.UPLOAD = none ∧
    dictGet (buildCurlOptions env r) OptKey.READFUNCTION = none ∧
    dictGet (buildCurlOptions env r) OptKey.NOBODY = none ∧
    buildCurlOptions env (withBody r none) = buildCurlOptions env r := by
  have ht : bodyTruthy r.request.body = false := by
    rcases hb with hb | hb <;> simp [bodyTruthy, hb]
  have hpatch : (buildBodyOptions r).1 = [] := by
    simp [buildBodyOptions, hm, ht]
  have hskip : ∀ k, k ≠ OptKey.SSLCERT → k ≠ OptKey.SSLKEY →
      k ≠ OptKey.SSL_VERIFYHOST → k ≠ OptKey.SSL_VERIFYPEER →
      k ≠ OptKey.CAPATH → k ≠ OptKey.CAINFO → k ≠ OptKey.TIMEOUT_MS →
      k ≠ OptKey.CONNECTTIMEOUT_MS → k ≠ OptKey.CUSTOMREQUEST →
      k ≠ OptKey.HTTPHEADER →
      dictGet (buildCurlOptions env r) k = dictGet (baseOptions r) k := by
    intro k k1 k2 k3 k4 k5 k6 k7 k8 k9 k10
    rw [dictGet_to_optsBody env r k k1 k2 k3 k4 k5 k6 k7 k8 k9]
    unfold optsBody; rw [hpatch]
    simp only [dictUpdate]
    exact dictGet_skip_headers r k k10
  refine ⟨?_, ?_, ?_, ?_, ?_⟩
  · rw [hskip _ (by decide) (by decide) (by decide) (by decide) (by decide)
      (by decide) (by decide) (by decide) (by decide) (by decide)]
    rfl
  · rw [hskip _ (by decide) (by decide) (by decide) (by decide) (by decide)
      (by decide) (by decide) (by decide) (by decide) (by decide)]
    rfl
  · rw [hskip _ (by decide) (by decide) (by decide) (by decide) (by decide)
      (by decide) (by decide) (by decide) (by decide) (by decide)]
    rfl
  · rw [hskip _ (by decide) (by decide) (by decide) (by decide) (by decide)
      (by decide) (by decide) (by decide) (by decide) (by decide)]
    rfl
  · have hb2 : (buildBodyOptions (withBody r none)).1 = [] := by
      simp [buildBodyOptions, withBody, hm, bodyTruthy]
    unfold buildCurlOptions optsCa optsTimeout optsMethod optsBody optsHeaders
    rw [hb2, hpatch]
    rfl

/-- Concrete POST request with an empty text body used to witness C10. -/
def rEmptyBody : CURLRequest :=
  mkCURLRequest
    { url := "http://example.com/e", method := some "POST",
      headers := [], body := some (.text "") }
    none none none 0

/-- Witness for C10: the theorem applied to a POST descriptor with an
empty string body. -/
theorem empty_body_like_absent_witness :
    rEmptyBody.request.method ≠ some "HEAD" ∧
    rEmptyBody.request.body = some (Body.text "") ∧
    (dictGet (buildCurlOptions envA rEmptyBody) OptKey.POSTFIELDS = none ∧
     dictGet (buildCurlOptions envA rEmptyBody) OptKey.UPLOAD = none ∧
     dictGet (buildCurlOptions envA rEmptyBody) OptKey.READFUNCTION = none ∧
     dictGet (buildCurlOptions envA rEmptyBody) OptKey.NOBODY = none ∧
     buildCurlOptions envA (withBody rEmptyBody none)
       = buildCurlOptions envA rEmptyBody) :=
  ⟨by decide, rfl, empty_body_like_absent envA rEmptyBody (by decide) (Or.inl rfl)⟩

/-- C1 failing input: a POST descriptor whose body is raw bytes and
whose Content-Type header is a multipart/form-data value. -/
def rMultipart : CURLRequest :=
  mkCURLRequest
    { url := "http://example.com/u", method := some "POST",
      headers := [("Content-Type", "multipart/form-data; boundary=x")],
      body := some (.bytes [1, 2, 3]) }
    none none none 0

/-- C1: what the code actually does on a multipart bytes body.  Because
a bytes object has no `read` attribute, flag (c) of the classification
holds and the body is routed to the buffered-field directive; the
multipart carve-out in flag (b) never takes effect for bytes, so no
streaming directive is emitted — contradicting the claimed behaviour. -/
theorem multipart_bytes_code_behavior :
    dictGet (buildCurlOptions envA rMultipart) OptKey.POSTFIELDS
      = some (OptVal.bytes [1, 2, 3]) ∧
    dictGet (buildCurlOptions envA rMultipart) OptKey.UPLOAD = none ∧
    dictGet (buildCurlOptions envA rMultipart) OptKey.READFUNCTION = none :=
  ⟨by decide, by decide, by decide⟩

end RequestsCurl
